import Mathlib

/-!
Shallow embedding of the browser event-tracker script (src/event_tracker.js).

The script attaches one listener per event category (click, submit, input,
scroll, mousemove, keydown, visibilitychange, beforeunload) and, for each
qualifying event, builds a structured record and writes it to the console
sink.  Below, each listener is embedded as a pure Lean function from its
inputs (the dispatched event, the DOM as an oracle, the closure state) to
the record it emits and its updated closure state.  Timers (debounce) are
modelled by explicit timestamps on events and a pending-timer slot threaded
through the event trace.
-/

/-! ## JavaScript string helpers -/

/-- The fixed mask token used for password fields. -/
def maskToken : String := "***MASKED***"

/-- needle is a prefix of hay (character lists). -/
def leadsWith : List Char → List Char → Bool
  | [], _ => true
  | _ :: _, [] => false
  | a :: as, b :: bs => a = b && leadsWith as bs

/-- needle occurs as a contiguous run somewhere in hay: JavaScript
hay.includes(needle), over character lists. -/
def charsInclude (hay needle : List Char) : Bool :=
  leadsWith needle hay ||
    match hay with
    | [] => false
    | _ :: rest => charsInclude rest needle

/-- JavaScript s.includes(sub): sub occurs as a substring of s. -/
def jsIncludes (s sub : String) : Bool := charsInclude s.data sub.data

/-- JavaScript s.toLowerCase(), as a character list. -/
def toLowerChars (s : String) : List Char := s.data.map Char.toLower

/-- The password test of setupFormTracking (line 148):
key.toLowerCase().includes("password"). -/
def isPasswordKey (k : String) : Bool :=
  charsInclude (toLowerChars k) "password".data

/-! ## FormSubmit (setupFormTracking, lines 137-174)

The listener iterates over the FormData entries in order and assigns
formValues[key] = value, masking password-named keys.  A JavaScript object
is modelled by its lookup function String to Option String: assignment
overwrites, so a later entry with the same key wins. -/

/-- A JavaScript object holding string values, modelled by its lookup. -/
def JsObj : Type := String → Option String

/-- The empty object. -/
def JsObj.empty : JsObj := fun _ => none

/-- Property assignment obj[k] = v. -/
def JsObj.set (m : JsObj) (k v : String) : JsObj :=
  fun q => if q = k then some v else m q

/-- The masked value stored for one FormData entry (lines 147-152):
password-named keys store the mask token, others store the actual value. -/
def maskEntry (k v : String) : String :=
  if isPasswordKey k then maskToken else v

/-- The formValues object built by the submit listener from the FormData
entries (lines 143-153), processed left to right. -/
def buildFormValues (entries : List (String × String)) : JsObj :=
  entries.foldl (fun m kv => m.set kv.1 (maskEntry kv.1 kv.2)) JsObj.empty

/-- The same fold without the masking step: the raw field map. -/
def rawFormValues (entries : List (String × String)) : JsObj :=
  entries.foldl (fun m kv => m.set kv.1 kv.2) JsObj.empty

/-- Form metadata captured by the submit listener (lines 158-163). -/
structure FormMeta where
  id : String
  name : String
  action : String
  method : String
deriving DecidableEq, Repr

/-- The FORM_SUBMIT record (lines 155-165); the timestamp is the dispatch
time passed in by the host. -/
structure SubmitRecord where
  timestamp : String
  form : FormMeta
  fields : JsObj

/-- jsOr x d is the JavaScript idiom x || d for strings: empty is falsy. -/
def jsOr (x d : String) : String := if x = "" then d else x

/-- The submit listener: builds the FORM_SUBMIT record for a form with the
given attributes and FormData entries (lines 138-173). -/
def submitListener (ts : String) (formId formName formAction formMethod : String)
    (entries : List (String × String)) : SubmitRecord :=
  { timestamp := ts
    form :=
      { id := jsOr formId "N/A"
        name := jsOr formName "N/A"
        action := jsOr formAction "N/A"
        method := jsOr formMethod "GET" }
    fields := buildFormValues entries }

/-! ## InputChange (setupInputTracking, lines 180-210)

A single closure variable inputTimeout is shared by every input element on
the page: each input event calls clearTimeout(inputTimeout) and then
schedules a fresh 500-unit timer closing over that event.  The trace
semantics below threads the single pending timer (its fire time and the
event it closed over) through a time-ordered list of input events; a timer
fires when the next event arrives at or after its fire time (or when the
trace ends). -/

/-- An input event as seen by the listener: its dispatch time and the
target element's properties at that moment. -/
structure InputEvent where
  time : Nat
  tagName : String
  elemType : String
  id : String
  name : String
  value : String
deriving DecidableEq, Repr

/-- The INPUT_CHANGE record (lines 192-202). -/
structure InputRecord where
  tagName : String
  elemType : String
  id : String
  name : String
  value : String
deriving DecidableEq, Repr

/-- The INPUT_CHANGE record built for one event (lines 195-201): the
element descriptor with N/A defaults, the value masked for password
inputs. -/
def mkInputRecord (e : InputEvent) : InputRecord :=
  { tagName := e.tagName
    elemType := jsOr e.elemType "N/A"
    id := jsOr e.id "N/A"
    name := jsOr e.name "N/A"
    value := if e.elemType = "password" then maskToken else e.value }

/-- The debounce callback body (lines 187-207): only INPUT, TEXTAREA and
SELECT targets produce a record. -/
def inputFireList (e : InputEvent) : List InputRecord :=
  if e.tagName = "INPUT" ∨ e.tagName = "TEXTAREA" ∨ e.tagName = "SELECT" then
    [mkInputRecord e]
  else []

/-- Runs the input trace: pending holds the single shared timer (fire time,
captured event), mirroring clearTimeout + setTimeout(cb, 500) on every
event.  An event arriving strictly before the pending fire time cancels the
pending record; otherwise the pending timer fires first. -/
def runInput : List InputEvent → Option (Nat × InputEvent) → List InputRecord
  | [], none => []
  | [], some (_, pe) => inputFireList pe
  | e :: rest, none => runInput rest (some (e.time + 500, e))
  | e :: rest, some (ft, pe) =>
      if e.time < ft then
        runInput rest (some (e.time + 500, e))
      else
        inputFireList pe ++ runInput rest (some (e.time + 500, e))

/-- chainWithin pe evts: every event of evts arrives strictly within 500
time-units of its predecessor (pe being the predecessor of the head). -/
def chainWithin : InputEvent → List InputEvent → Bool
  | _, [] => true
  | pe, e :: rest => decide (e.time < pe.time + 500) && chainWithin e rest

/-- The last event of a nonempty burst pe :: evts. -/
def lastEvent (pe : InputEvent) (evts : List InputEvent) : InputEvent :=
  evts.getLast?.getD pe

/-! ## Scroll (setupScrollTracking, lines 216-246)

After the 200-unit debounce, the callback computes the rounded scroll
percentage, compares it to the closure variable lastScrollPosition, and if
the absolute delta exceeds 10 it overwrites lastScrollPosition and builds
the record.  Note the source computes the direction AFTER overwriting
lastScrollPosition, so the comparison scrollTop > lastScrollPosition is
really scrollTop (pixels) against the just-computed percentage. -/

/-- Math.round: round half toward positive infinity, as in JavaScript. -/
def mathRound (q : ℚ) : ℤ := ⌊q + 1 / 2⌋

/-- The rounded scroll percentage of a sample (line 226):
Math.round(scrollTop / (scrollHeight - innerHeight) * 100), where denom is
scrollHeight - innerHeight. -/
def scrollPct (scrollTop denom : ℤ) : ℤ :=
  mathRound ((scrollTop * 100 : ℚ) / (denom : ℚ))

/-- The SCROLL record (lines 232-238). -/
structure ScrollRecord where
  position : ℤ
  percentage : ℤ
  direction : String
deriving DecidableEq, Repr

/-- One debounced scroll sample (callback body, lines 224-243): takes the
closure variable lastScrollPosition and the sample, returns the updated
closure variable and the record, if one is emitted.  The direction mirrors
line 237 exactly: it reads lastScrollPosition after line 230 overwrote it,
so it compares scrollTop against the current percentage. -/
def scrollStep (lastScrollPosition : ℤ) (scrollTop denom : ℤ) :
    ℤ × Option ScrollRecord :=
  let scrollPercentage := scrollPct scrollTop denom
  if (scrollPercentage - lastScrollPosition).natAbs > 10 then
    let lastScrollPosition := scrollPercentage
    (lastScrollPosition,
      some { position := scrollTop
             percentage := scrollPercentage
             direction := if scrollTop > lastScrollPosition then "down" else "up" })
  else
    (lastScrollPosition, none)

/-- The direction the spec asks for: compare the current sample against the
previous recorded sample (modelled from the claim wording, for contrast
with scrollStep). -/
def specDirection (prevPct currPct : ℤ) : String :=
  if currPct > prevPct then "down" else "up"

/-! ## KeyPress (setupKeyboardTracking, lines 291-311)

Every keydown is handled synchronously, with an early return when the
target is a password field; no timer and no closure state. -/

/-- A keydown event as seen by the listener. -/
structure KeyEvent where
  timestamp : String
  key : String
  code : String
  ctrlKey : Bool
  shiftKey : Bool
  altKey : Bool
  targetType : String
  targetTag : String
deriving DecidableEq, Repr

/-- The KEYPRESS record (lines 296-305). -/
structure KeyRecord where
  timestamp : String
  key : String
  code : String
  ctrlKey : Bool
  shiftKey : Bool
  altKey : Bool
  targetElement : String
deriving DecidableEq, Repr

/-- The record the keydown listener builds for a non-password target. -/
def mkKeyRecord (e : KeyEvent) : KeyRecord :=
  { timestamp := e.timestamp
    key := e.key
    code := e.code
    ctrlKey := e.ctrlKey
    shiftKey := e.shiftKey
    altKey := e.altKey
    targetElement := e.targetTag }

/-- The keydown listener (lines 292-310): returns early with no record when
event.target.type is password, otherwise emits one record. -/
def keydownListener (e : KeyEvent) : Option KeyRecord :=
  if e.targetType = "password" then none else some (mkKeyRecord e)

/-- A sequence of keydown events produces one record per non-password
event, in order. -/
def processKeydowns (evts : List KeyEvent) : List KeyRecord :=
  evts.filterMap keydownListener

/-! ## The DOM oracle and the structural locators (lines 355-408)

The DOM is modelled as an oracle over node handles (plain naturals); every
property read the script performs is a field of the oracle.  A node whose
parent is none models a node whose parentNode is null; accessing
.childNodes on it is the JavaScript TypeError.  size bounds the length of
any parent chain, so size + 1 units of fuel never run out on an acyclic
document. -/

/-- The page DOM as a property oracle. -/
structure Dom where
  size : Nat
  id : Nat → String
  tagName : Nat → String
  className : Nat → String
  nodeType : Nat → Nat
  parent : Nat → Option Nat
  childNodes : Nat → List Nat
  body : Nat
  textContent : Nat → String
  value : Nat → String
  elemType : Nat → String
  name : Nat → String
  styleOf : Nat → String → String

/-- A JavaScript exception escaping a listener. -/
inductive JsError where
  | typeError
  | stackOverflow
deriving DecidableEq, Repr

/-- The class part of one CSS selector step (line 368):
"." + className.trim().split(whitespace).join("."). -/
def cssClasses (cn : String) : String :=
  String.intercalate "." ((cn.trim.split (fun c => c.isWhitespace)).filter (· ≠ ""))

/-- The while loop of getCSSSelector (lines 362-377): builds one selector
step per element ancestor, unshifting onto the path, stopping at a missing
or non-element parent. -/
def cssLoop (d : Dom) : Nat → Nat → List String → List String
  | 0, _, path => path
  | fuel + 1, e, path =>
      if d.nodeType e = 1 then
        let selector := (d.tagName e).toLower ++
          (if d.className e ≠ "" then "." ++ cssClasses (d.className e) else "")
        let path := selector :: path
        match d.parent e with
        | none => path
        | some p => if d.nodeType p = 1 then cssLoop d fuel p path else path
      else path

/-- getCSSSelector (lines 355-380): an element with a non-empty id yields
"#" + id immediately; otherwise the ancestor path joined with " > ". -/
def getCSSSelector (d : Dom) (e : Nat) : String :=
  if d.id e ≠ "" then "#" ++ d.id e
  else String.intercalate " > " (cssLoop d (d.size + 1) e [])

/-- JavaScript string coercion of a possibly-undefined string: undefined
concatenates as the text "undefined". -/
def jsStringOfOpt : Option String → String
  | none => "undefined"
  | some s => s

/-- The sibling scan of getXPath (lines 396-407): walks the parent's
childNodes; on finding the element returns its 1-based index among earlier
same-tag element siblings; returns none when the element is absent (the
function then falls off the end, i.e. undefined). -/
def xpathSiblingIndex (d : Dom) (e : Nat) : List Nat → Nat → Option Nat
  | [], _ => none
  | s :: rest, index =>
      if s = e then some (index + 1)
      else if d.nodeType s = 1 ∧ d.tagName s = d.tagName e then
        xpathSiblingIndex d e rest (index + 1)
      else xpathSiblingIndex d e rest index

/-- getXPath (lines 387-408) with explicit fuel for the recursion on the
parent chain.  A node with no id that is not the body and has a null
parent raises a TypeError at line 397 (element.parentNode.childNodes);
fuel exhaustion models the stack overflow of a cyclic parent chain. -/
def getXPathFuel (d : Dom) : Nat → Nat → Except JsError (Option String)
  | 0, _ => .error .stackOverflow
  | fuel + 1, e =>
      if d.id e ≠ "" then
        .ok (some ("//*[@id=\"" ++ d.id e ++ "\"]"))
      else if e = d.body then .ok (some "/html/body")
      else
        match d.parent e with
        | none => .error .typeError
        | some p =>
            match xpathSiblingIndex d e (d.childNodes p) 0 with
            | none => .ok none
            | some idx => do
                let pres ← getXPathFuel d fuel p
                .ok (some (jsStringOfOpt pres ++ "/" ++ (d.tagName e).toLower ++
                  "[" ++ toString idx ++ "]"))

/-- getXPath at the standard fuel. -/
def getXPath (d : Dom) (e : Nat) : Except JsError (Option String) :=
  getXPathFuel d (d.size + 1) e

/-- The element descriptor gathered by the click listener (lines 100-108). -/
structure ElementDescr where
  tagName : String
  id : String
  className : String
  textContent : String
  value : String
  elemType : String
  name : String
deriving DecidableEq, Repr

/-- Builds the element descriptor, with the N/A defaults and the 50
character text truncation of lines 102-107. -/
def describeElement (d : Dom) (e : Nat) : ElementDescr :=
  { tagName := d.tagName e
    id := jsOr (d.id e) "N/A"
    className := jsOr (d.className e) "N/A"
    textContent :=
      if d.textContent e ≠ "" then (d.textContent e).take 50 ++ "..." else "N/A"
    value := jsOr (d.value e) "N/A"
    elemType := jsOr (d.elemType e) "N/A"
    name := jsOr (d.name e) "N/A" }

/-- The fixed whitelist of computed styles (getRelevantStyles,
lines 415-431). -/
structure StyleSnapshot where
  display : String
  stylePosition : String
  backgroundColor : String
  color : String
  fontSize : String
  fontWeight : String
  border : String
  padding : String
  margin : String
  width : String
  height : String
deriving DecidableEq, Repr

/-- Reads the whitelist from the computed-style oracle. -/
def getRelevantStyles (d : Dom) (e : Nat) : StyleSnapshot :=
  { display := d.styleOf e "display"
    stylePosition := d.styleOf e "position"
    backgroundColor := d.styleOf e "backgroundColor"
    color := d.styleOf e "color"
    fontSize := d.styleOf e "fontSize"
    fontWeight := d.styleOf e "fontWeight"
    border := d.styleOf e "border"
    padding := d.styleOf e "padding"
    margin := d.styleOf e "margin"
    width := d.styleOf e "width"
    height := d.styleOf e "height" }

/-- A click event: the target handle and the pointer coordinates. -/
structure ClickEvent where
  target : Nat
  clientX : ℤ
  clientY : ℤ
  pageX : ℤ
  pageY : ℤ
deriving DecidableEq, Repr

/-- The CLICK record (lines 97-118). -/
structure ClickRecord where
  timestamp : String
  element : ElementDescr
  clientX : ℤ
  clientY : ℤ
  pageX : ℤ
  pageY : ℤ
  cssSelector : String
  computedStyles : StyleSnapshot
  xpath : Option String

/-- The click listener body (lines 93-130): builds the CLICK record.  Of
the property computations only getXPath can throw; a thrown error aborts
the listener before anything is written. -/
def clickListener (d : Dom) (ts : String) (ev : ClickEvent) :
    Except JsError ClickRecord := do
  let xp ← getXPath d ev.target
  .ok { timestamp := ts
        element := describeElement d ev.target
        clientX := ev.clientX
        clientY := ev.clientY
        pageX := ev.pageX
        pageY := ev.pageY
        cssSelector := getCSSSelector d ev.target
        computedStyles := getRelevantStyles d ev.target
        xpath := xp }

/-! ## MouseMove (setupMouseTracking, lines 252-285)

Only needed for the effect inventory: after the 1000-unit debounce the
callback compares the Euclidean distance from the last recorded position
with 100 and, over exact arithmetic, sqrt(dx^2 + dy^2) > 100 holds iff
dx^2 + dy^2 > 10000. -/

/-- The MOUSE_MOVE record (lines 269-277). -/
structure MouseRecord where
  x : ℤ
  y : ℤ
  elementUnderCursor : String
deriving DecidableEq, Repr

/-- One debounced mouse sample (lines 259-282): threads the closure
variable lastMousePosition. -/
def mouseStep (lastMousePosition : ℤ × ℤ) (x y : ℤ) (targetTag : String) :
    (ℤ × ℤ) × Option MouseRecord :=
  if (x - lastMousePosition.1) ^ 2 + (y - lastMousePosition.2) ^ 2 > 100 ^ 2 then
    ((x, y), some { x := x, y := y, elementUnderCursor := targetTag })
  else
    (lastMousePosition, none)

/-! ## The custom-event entry point (window.EventTracker, lines 434-443)

trackCustomEvent logs the name and the payload exactly as given and
returns undefined.  Payloads are arbitrary JavaScript values. -/

/-- An arbitrary JavaScript value, for custom-event payloads. -/
inductive JsValue where
  | undef
  | nullV
  | bool (b : Bool)
  | num (n : ℤ)
  | str (s : String)
  | arr (elems : List JsValue)
  | obj (fields : List (String × JsValue))

/-- One console line written by the tracker: either a styled banner, a
label followed by a value, or plain text. -/
inductive SinkLine where
  | styled (text : String)
  | labeled (label : String) (v : JsValue)
  | plain (text : String)

/-- trackCustomEvent (lines 437-442): returns undefined and writes the
banner with the name, the payload verbatim, the timestamp and a blank
line.  No masking, truncation or validation touches eventData. -/
def trackCustomEvent (eventName : String) (eventData : JsValue) (now : String) :
    JsValue × List SinkLine :=
  (JsValue.undef,
    [SinkLine.styled ("🎯 CUSTOM EVENT: " ++ eventName),
     SinkLine.labeled "Event Data:" eventData,
     SinkLine.labeled "Timestamp:" (JsValue.str now),
     SinkLine.plain ""])

/-! ## Effect inventory (claim about side effects)

Every primitive operation the script performs on its host environment is
one constructor of Effect.  The alphabet also names the operations the
script could have performed but never does (network requests, storage
writes, DOM mutation), so their absence is a statement about the code, not
about the alphabet.  Each listener and the module load sequence is mapped,
branch by branch, to the list of effects it performs, in source order. -/

/-- One primitive effect on the host environment. -/
inductive Effect where
  | consoleWrite (label : String)
  | listenerAttach (target evtName : String)
  | timerSet (delay : Nat)
  | timerClear
  | closureWrite (varName : String)
  | globalExport (gname : String)
  | throwEffect (err : JsError)
  | netRequest
  | storageWrite
  | domMutation
deriving DecidableEq, Repr

/-- Effects that would touch the page or the outside world: network
requests, storage writes, DOM or style mutation. -/
def pageHarming : Effect → Bool
  | Effect.netRequest => true
  | Effect.storageWrite => true
  | Effect.domMutation => true
  | _ => false

/-- Console writes of trackPageView (lines 82-84). -/
def trackPageViewEffects : List Effect :=
  [Effect.consoleWrite "PAGE VIEW",
   Effect.consoleWrite "table: pageViewData",
   Effect.consoleWrite ""]

/-- Effects of initializeTracker (lines 20-57): the banner and environment
logs, the page-view logs, then one listener attachment per category. -/
def initializeTrackerEffects : List Effect :=
  [Effect.consoleWrite "separator", Effect.consoleWrite "UNIVERSAL EVENT TRACKER INITIALIZED",
   Effect.consoleWrite "separator", Effect.consoleWrite "Tracking started at:",
   Effect.consoleWrite "Page URL:", Effect.consoleWrite "User Agent:",
   Effect.consoleWrite "Screen Resolution:", Effect.consoleWrite "Viewport Size:",
   Effect.consoleWrite ""] ++
  trackPageViewEffects ++
  [Effect.listenerAttach "document" "click",
   Effect.listenerAttach "document" "submit",
   Effect.listenerAttach "document" "input",
   Effect.listenerAttach "window" "scroll",
   Effect.listenerAttach "document" "mousemove",
   Effect.listenerAttach "document" "keydown",
   Effect.listenerAttach "document" "visibilitychange",
   Effect.listenerAttach "window" "beforeunload"]

/-- Effects of the module body itself (lines 8-14 and 434-447): initialize
now or defer to DOMContentLoaded, export window.EventTracker, log ready. -/
def moduleLoadEffects (stillLoading : Bool) : List Effect :=
  (if stillLoading then [Effect.listenerAttach "document" "DOMContentLoaded"]
   else initializeTrackerEffects) ++
  [Effect.globalExport "EventTracker",
   Effect.consoleWrite "Event Tracker Ready!",
   Effect.consoleWrite "Use EventTracker.trackCustomEvent(name, data) to track custom events",
   Effect.consoleWrite ""]

/-- Effects of one click dispatch (lines 93-130): if building the record
throws, the exception escapes before anything is written; otherwise the
nine console writes of lines 121-129. -/
def clickEffects (d : Dom) (ts : String) (ev : ClickEvent) : List Effect :=
  match clickListener d ts ev with
  | Except.error err => [Effect.throwEffect err]
  | Except.ok _ =>
      [Effect.consoleWrite "CLICK EVENT", Effect.consoleWrite "Element:",
       Effect.consoleWrite "table: clickData.element", Effect.consoleWrite "Position:",
       Effect.consoleWrite "CSS Selector:", Effect.consoleWrite "XPath:",
       Effect.consoleWrite "Computed Styles:", Effect.consoleWrite "Full Data:",
       Effect.consoleWrite ""]

/-- Effects of one submit dispatch (lines 138-173). -/
def formSubmitEffects : List Effect :=
  [Effect.consoleWrite "FORM SUBMIT", Effect.consoleWrite "Form Element:",
   Effect.consoleWrite "table: submitData.form", Effect.consoleWrite "Form Data:",
   Effect.consoleWrite ""]

/-- Effects of one input-event arrival (lines 185-208): cancel and reset
the shared debounce timer. -/
def inputArrivalEffects : List Effect := [Effect.timerClear, Effect.timerSet 500]

/-- Effects of the input debounce timer firing (lines 187-207). -/
def inputFireEffects (e : InputEvent) : List Effect :=
  if (inputFireList e).isEmpty then []
  else [Effect.consoleWrite "INPUT CHANGE",
        Effect.consoleWrite "table: inputData.element", Effect.consoleWrite ""]

/-- Effects of one scroll-event arrival (lines 221-244). -/
def scrollArrivalEffects : List Effect := [Effect.timerClear, Effect.timerSet 200]

/-- Effects of the scroll debounce timer firing (lines 223-243): when the
delta gate passes, the closure variable is overwritten and the record is
logged. -/
def scrollFireEffects (lastScrollPosition scrollTop denom : ℤ) : List Effect :=
  match (scrollStep lastScrollPosition scrollTop denom).2 with
  | none => []
  | some _ =>
      [Effect.closureWrite "lastScrollPosition",
       Effect.consoleWrite "SCROLL EVENT",
       Effect.consoleWrite "table: scrollData", Effect.consoleWrite ""]

/-- Effects of one mousemove arrival (lines 257-283). -/
def mouseArrivalEffects : List Effect := [Effect.timerClear, Effect.timerSet 1000]

/-- Effects of the mouse debounce timer firing (lines 259-282). -/
def mouseFireEffects (lastMousePosition : ℤ × ℤ) (x y : ℤ) (tag : String) :
    List Effect :=
  match (mouseStep lastMousePosition x y tag).2 with
  | none => []
  | some _ =>
      [Effect.closureWrite "lastMousePosition",
       Effect.consoleWrite "MOUSE MOVE",
       Effect.consoleWrite "table: mouseData", Effect.consoleWrite ""]

/-- Effects of one keydown dispatch (lines 292-310). -/
def keydownEffects (e : KeyEvent) : List Effect :=
  match keydownListener e with
  | none => []
  | some _ =>
      [Effect.consoleWrite "KEYPRESS",
       Effect.consoleWrite "table: keyData", Effect.consoleWrite ""]

/-- Effects of one visibilitychange dispatch (lines 318-328). -/
def visibilityEffects : List Effect :=
  [Effect.consoleWrite "VISIBILITY CHANGE",
   Effect.consoleWrite "table: visibilityData", Effect.consoleWrite ""]

/-- Effects of the beforeunload dispatch (lines 336-347). -/
def pageExitEffects : List Effect :=
  [Effect.consoleWrite "PAGE EXIT",
   Effect.consoleWrite "table: navigationData", Effect.consoleWrite ""]

/-- The console effect of one sink line. -/
def sinkLineEffect : SinkLine → Effect
  | SinkLine.styled t => Effect.consoleWrite t
  | SinkLine.labeled l _ => Effect.consoleWrite l
  | SinkLine.plain t => Effect.consoleWrite t

/-- Effects of one trackCustomEvent call (lines 437-442). -/
def customEventEffects (eventName : String) (eventData : JsValue) (now : String) :
    List Effect :=
  (trackCustomEvent eventName eventData now).2.map sinkLineEffect

/-- One invocation of an operation of the observation layer, with the
inputs that determine its branches. -/
inductive Op where
  | moduleLoad (stillLoading : Bool)
  | click (d : Dom) (ts : String) (ev : ClickEvent)
  | formSubmit
  | inputArrival
  | inputFire (e : InputEvent)
  | scrollArrival
  | scrollFire (lastScrollPosition scrollTop denom : ℤ)
  | mouseArrival
  | mouseFire (lastMousePosition : ℤ × ℤ) (x y : ℤ) (tag : String)
  | keydown (e : KeyEvent)
  | visibilityChange
  | pageExit
  | customEvent (eventName : String) (eventData : JsValue) (now : String)

/-- The complete effect list of each operation. -/
def effectsOf : Op → List Effect
  | Op.moduleLoad l => moduleLoadEffects l
  | Op.click d ts ev => clickEffects d ts ev
  | Op.formSubmit => formSubmitEffects
  | Op.inputArrival => inputArrivalEffects
  | Op.inputFire e => inputFireEffects e
  | Op.scrollArrival => scrollArrivalEffects
  | Op.scrollFire a b c => scrollFireEffects a b c
  | Op.mouseArrival => mouseArrivalEffects
  | Op.mouseFire p x y t => mouseFireEffects p x y t
  | Op.keydown e => keydownEffects e
  | Op.visibilityChange => visibilityEffects
  | Op.pageExit => pageExitEffects
  | Op.customEvent n v t => customEventEffects n v t

/-! ## Concrete documents used as test inputs -/

/-- A detached div with no id and no parent: its handle is 0, the body
handle 1 does not occur in its (empty) ancestry. -/
def detachedDom : Dom :=
  { size := 1
    id := fun _ => ""
    tagName := fun _ => "DIV"
    className := fun _ => ""
    nodeType := fun _ => 1
    parent := fun _ => none
    childNodes := fun _ => []
    body := 1
    textContent := fun _ => ""
    value := fun _ => ""
    elemType := fun _ => ""
    name := fun _ => ""
    styleOf := fun _ _ => "" }

/-- A detached span with no id and no parent, distinct shape from
detachedDom. -/
def detachedSpanDom : Dom :=
  { size := 3
    id := fun _ => ""
    tagName := fun _ => "SPAN"
    className := fun _ => "note"
    nodeType := fun _ => 1
    parent := fun _ => none
    childNodes := fun _ => []
    body := 7
    textContent := fun _ => "hello"
    value := fun _ => ""
    elemType := fun _ => ""
    name := fun _ => ""
    styleOf := fun _ _ => "inherit" }

/-- A document whose node 0 carries the id submit-btn. -/
def idButtonDom : Dom :=
  { size := 2
    id := fun n => if n = 0 then "submit-btn" else ""
    tagName := fun n => if n = 0 then "BUTTON" else "BODY"
    className := fun _ => ""
    nodeType := fun _ => 1
    parent := fun n => if n = 0 then some 1 else none
    childNodes := fun n => if n = 1 then [0] else []
    body := 1
    textContent := fun _ => ""
    value := fun _ => ""
    elemType := fun _ => ""
    name := fun _ => ""
    styleOf := fun _ _ => "" }

/-! # Theorems -/

/-- Any value the masked fold stores under a password-named key is the
mask token, whatever the accumulator already held there. -/
theorem foldMask_password (q : String) (hq : isPasswordKey q = true) :
    ∀ (entries : List (String × String)) (m : JsObj),
      (∀ v, m q = some v → v = maskToken) →
      ∀ v,
        (entries.foldl (fun acc kv => acc.set kv.1 (maskEntry kv.1 kv.2)) m) q = some v →
        v = maskToken := by
  intro entries
  induction entries with
  | nil => intro m hm; exact hm
  | cons kv rest ih =>
    intro m hm
    simp only [List.foldl_cons]
    refine ih _ ?_
    intro w hw
    simp only [JsObj.set] at hw
    by_cases h : q = kv.1
    · rw [if_pos h] at hw
      have hkv : isPasswordKey kv.1 = true := h ▸ hq
      injection hw with hw
      rw [← hw, maskEntry, hkv]
      simp
    · rw [if_neg h] at hw
      exact hm w hw

/-- On a key that is not password-named, the masked fold and the raw fold
agree pointwise. -/
theorem foldMask_unmasked (q : String) (hq : isPasswordKey q = false) :
    ∀ (entries : List (String × String)) (m m2 : JsObj), m q = m2 q →
      (entries.foldl (fun acc kv => acc.set kv.1 (maskEntry kv.1 kv.2)) m) q =
        (entries.foldl (fun acc kv => acc.set kv.1 kv.2) m2) q := by
  intro entries
  induction entries with
  | nil => intro m m2 h; exact h
  | cons kv rest ih =>
    intro m m2 h
    simp only [List.foldl_cons]
    refine ih _ _ ?_
    simp only [JsObj.set]
    by_cases hk : q = kv.1
    · rw [if_pos hk, if_pos hk]
      have hkv : isPasswordKey kv.1 = false := hk ▸ hq
      rw [maskEntry, hkv]
      simp
    · rw [if_neg hk, if_neg hk]
      exact h

/-- C1: for every form submit, the emitted FormSubmit record's fields map
sends every field whose name contains password (case-insensitively) to the
mask token, and every other field to its actual value; in particular the
form with fields username alice and password secret yields the map sending
username to alice and password to the mask token. -/
theorem formSubmit_password_masking :
    (∀ (ts fid fn fa fm : String) (entries : List (String × String)) (k : String),
        isPasswordKey k = true →
        ∀ v, (submitListener ts fid fn fa fm entries).fields k = some v →
          v = maskToken) ∧
    (∀ (ts fid fn fa fm : String) (entries : List (String × String)) (k : String),
        isPasswordKey k = false →
        (submitListener ts fid fn fa fm entries).fields k = rawFormValues entries k) ∧
    (∀ (ts fid fn fa fm q : String),
        (submitListener ts fid fn fa fm
            [("username", "alice"), ("password", "secret")]).fields q =
          if q = "password" then some maskToken
          else if q = "username" then some "alice" else none) := by
  refine ⟨?_, ?_, ?_⟩
  · intro ts fid fn fa fm entries k hk v hv
    exact foldMask_password k hk entries JsObj.empty (fun v h => by cases h) v hv
  · intro ts fid fn fa fm entries k hk
    exact foldMask_unmasked k hk entries JsObj.empty JsObj.empty rfl
  · intro ts fid fn fa fm q
    have h1 : isPasswordKey "username" = false := by decide
    have h2 : isPasswordKey "password" = true := by decide
    simp only [submitListener, buildFormValues, List.foldl_cons, List.foldl_nil,
      JsObj.set, JsObj.empty, maskEntry, h1, h2, if_true, if_false]
    simp

/-- C1 witness: the masking theorem evaluated on the alice and secret
form. -/
theorem formSubmit_password_masking_witness :
    isPasswordKey "password" = true ∧
    (submitListener "t0" "login" "login" "/session" "POST"
        [("username", "alice"), ("password", "secret")]).fields "password" =
      some maskToken ∧
    (submitListener "t0" "login" "login" "/session" "POST"
        [("username", "alice"), ("password", "secret")]).fields "username" =
      some "alice" := by
  have h := formSubmit_password_masking.2.2 "t0" "login" "login" "/session" "POST"
  refine ⟨by decide, ?_, ?_⟩
  · rw [h "password"]; simp
  · rw [h "username"]; simp

/-- Appending to a burst moves the anchor of lastEvent forward. -/
theorem lastEvent_cons (pe e : InputEvent) (rest : List InputEvent) :
    lastEvent pe (e :: rest) = lastEvent e rest := by
  cases rest with
  | nil => rfl
  | cons f fs =>
    have h : (f :: fs).getLast?.isSome := by simp
    obtain ⟨x, hx⟩ := Option.isSome_iff_exists.mp h
    simp [lastEvent, List.getLast?_cons_cons, hx]

/-- While every event arrives inside the pending window, the single shared
timer keeps being cancelled and rescheduled, so the trace ends with
exactly the firing for its last event. -/
theorem runInput_chain_eq :
    ∀ (evts : List InputEvent) (pe : InputEvent), chainWithin pe evts = true →
      runInput evts (some (pe.time + 500, pe)) = inputFireList (lastEvent pe evts) := by
  intro evts
  induction evts with
  | nil => intro pe _; rfl
  | cons e rest ih =>
    intro pe h
    simp only [chainWithin, Bool.and_eq_true, decide_eq_true_eq] at h
    obtain ⟨h1, h2⟩ := h
    simp only [runInput]
    rw [if_pos h1, ih e h2, lastEvent_cons]

/-- C10: the InputChange debounce timer is one timer shared by all
elements: over any burst whose events each arrive within 500 time-units of
the previous one, whatever elements they target, the run emits the record
of the last event only (and nothing at all if the last target is not a
tracked form element). -/
theorem inputChange_shared_timer (e : InputEvent) (evts : List InputEvent)
    (hchain : chainWithin e evts = true) :
    runInput (e :: evts) none = inputFireList (lastEvent e evts) ∧
    (runInput (e :: evts) none).length ≤ 1 ∧
    ∀ r ∈ runInput (e :: evts) none, r = mkInputRecord (lastEvent e evts) := by
  have key : runInput (e :: evts) none = inputFireList (lastEvent e evts) := by
    simp only [runInput]
    exact runInput_chain_eq evts e hchain
  refine ⟨key, ?_, ?_⟩
  · rw [key]
    unfold inputFireList
    split <;> simp
  · rw [key]
    intro r hr
    unfold inputFireList at hr
    split at hr <;> simp_all

/-- C10 witness: an interleaved burst over two distinct fields (f1, f2,
then f1 again) within the window yields exactly the record of the last
event. -/
theorem inputChange_shared_timer_witness :
    chainWithin
        { time := 0, tagName := "INPUT", elemType := "text",
          id := "f1", name := "f1", value := "x" }
        [{ time := 200, tagName := "TEXTAREA", elemType := "",
           id := "f2", name := "f2", value := "y" },
         { time := 400, tagName := "INPUT", elemType := "text",
           id := "f1", name := "f1", value := "xz" }] = true ∧
    runInput
        [{ time := 0, tagName := "INPUT", elemType := "text",
           id := "f1", name := "f1", value := "x" },
         { time := 200, tagName := "TEXTAREA", elemType := "",
           id := "f2", name := "f2", value := "y" },
         { time := 400, tagName := "INPUT", elemType := "text",
           id := "f1", name := "f1", value := "xz" }] none =
      inputFireList
        (lastEvent
          { time := 0, tagName := "INPUT", elemType := "text",
            id := "f1", name := "f1", value := "x" }
          [{ time := 200, tagName := "TEXTAREA", elemType := "",
             id := "f2", name := "f2", value := "y" },
           { time := 400, tagName := "INPUT", elemType := "text",
             id := "f1", name := "f1", value := "xz" }]) :=
  ⟨by decide, (inputChange_shared_timer _ _ (by decide)).1⟩

/-- C2 fails as stated: the debounce is not per input.  Two events on the
distinct fields a and b, 100 time-units apart, yield one single record and
it is for field b; per-input debouncing would also have emitted a record
for field a, whose one-event burst had no later same-field event inside
its window. -/
theorem inputChange_not_per_input :
    runInput
        [{ time := 0, tagName := "INPUT", elemType := "text",
           id := "a", name := "a", value := "alpha" },
         { time := 100, tagName := "INPUT", elemType := "text",
           id := "b", name := "b", value := "beta" }] none =
      [{ tagName := "INPUT", elemType := "text",
         id := "b", name := "b", value := "beta" }] ∧
    (runInput
        [{ time := 0, tagName := "INPUT", elemType := "text",
           id := "a", name := "a", value := "alpha" },
         { time := 100, tagName := "INPUT", elemType := "text",
           id := "b", name := "b", value := "beta" }] none).all
      (fun r => r.name != "a") = true := by
  constructor
  · rfl
  · rfl

/-- C2 amended: InputChange is debounced by a single timer shared across
all inputs (not throttled): a burst of events on the same field, each
within 500 time-units of the previous one, yields exactly one record,
carrying the payload of the last event, masked when the element is a
password input; only INPUT, TEXTAREA and SELECT targets are recorded. -/
theorem inputChange_debounce_law (e : InputEvent) (evts : List InputEvent)
    (hchain : chainWithin e evts = true)
    (_hsame : ∀ x ∈ evts, x.name = e.name)
    (htag : (lastEvent e evts).tagName = "INPUT" ∨
      (lastEvent e evts).tagName = "TEXTAREA" ∨
      (lastEvent e evts).tagName = "SELECT") :
    runInput (e :: evts) none = [mkInputRecord (lastEvent e evts)] ∧
    ∀ r ∈ runInput (e :: evts) none,
      r.value =
        (if (lastEvent e evts).elemType = "password" then maskToken
         else (lastEvent e evts).value) := by
  have key : runInput (e :: evts) none = inputFireList (lastEvent e evts) := by
    simp only [runInput]
    exact runInput_chain_eq evts e hchain
  have hfire : inputFireList (lastEvent e evts) = [mkInputRecord (lastEvent e evts)] := by
    unfold inputFireList
    rw [if_pos htag]
  refine ⟨key.trans hfire, ?_⟩
  intro r hr
  rw [key, hfire] at hr
  simp only [List.mem_singleton] at hr
  rw [hr]
  rfl

/-- C2 witness: three keystrokes on the same field q at times 0, 150 and
450 yield exactly the record of the last one. -/
theorem inputChange_debounce_law_witness :
    chainWithin
        { time := 0, tagName := "INPUT", elemType := "text",
          id := "q", name := "q", value := "h" }
        [{ time := 150, tagName := "INPUT", elemType := "text",
           id := "q", name := "q", value := "he" },
         { time := 450, tagName := "INPUT", elemType := "text",
           id := "q", name := "q", value := "hey" }] = true ∧
    runInput
        [{ time := 0, tagName := "INPUT", elemType := "text",
           id := "q", name := "q", value := "h" },
         { time := 150, tagName := "INPUT", elemType := "text",
           id := "q", name := "q", value := "he" },
         { time := 450, tagName := "INPUT", elemType := "text",
           id := "q", name := "q", value := "hey" }] none =
      [mkInputRecord
        (lastEvent
          { time := 0, tagName := "INPUT", elemType := "text",
            id := "q", name := "q", value := "h" }
          [{ time := 150, tagName := "INPUT", elemType := "text",
             id := "q", name := "q", value := "he" },
           { time := 450, tagName := "INPUT", elemType := "text",
             id := "q", name := "q", value := "hey" }])] :=
  ⟨by decide, (inputChange_debounce_law _ _ (by decide) (by decide) (by decide)).1⟩

/-- C3: the scroll-direction computation does not compare against the
previous recorded sample.  Concretely, with the previous recorded
percentage 50, a scroll up to scrollTop 20 over a scrollable height of
1000 (percentage 2) emits a record whose direction is down, because line
237 reads lastScrollPosition after line 230 overwrote it with the current
percentage and so compares 20 pixels against 2 percent; comparing against
the previous sample as the claim states would give up. -/
theorem scrollDirection_defect :
    scrollStep 50 20 1000 =
      (2, some { position := 20, percentage := 2, direction := "down" }) ∧
    specDirection 50 (scrollPct 20 1000) = "up" := by
  have hp : scrollPct 20 1000 = 2 := by norm_num [scrollPct, mathRound]
  constructor
  · simp only [scrollStep, hp]
    norm_num
  · simp [specDirection, hp]

/-- C5: a Scroll record is emitted only when the rounded percentage moved
by strictly more than 10 points since the last recorded sample, and of two
consecutive samples whose percentages differ by at most 10 points at most
one produces a record. -/
theorem scroll_delta_gate :
    (∀ last top denom : ℤ,
        ((scrollStep last top denom).2).isSome = true →
        (scrollPct top denom - last).natAbs > 10) ∧
    (∀ last t1 d1 t2 d2 : ℤ,
        (scrollPct t1 d1 - scrollPct t2 d2).natAbs ≤ 10 →
        ¬(((scrollStep last t1 d1).2).isSome = true ∧
          ((scrollStep (scrollStep last t1 d1).1 t2 d2).2).isSome = true)) := by
  have emit : ∀ last top denom : ℤ,
      ((scrollStep last top denom).2).isSome = true →
      (scrollPct top denom - last).natAbs > 10 := by
    intro last top denom h
    by_cases hgt : (scrollPct top denom - last).natAbs > 10
    · exact hgt
    · exfalso
      simp only [scrollStep] at h
      rw [if_neg hgt] at h
      simp at h
  refine ⟨emit, ?_⟩
  intro last t1 d1 t2 d2 hle ⟨h1, h2⟩
  have hfst : (scrollStep last t1 d1).1 = scrollPct t1 d1 := by
    have hgt := emit last t1 d1 h1
    simp only [scrollStep]
    rw [if_pos hgt]
  rw [hfst] at h2
  have hgt2 := emit (scrollPct t1 d1) t2 d2 h2
  omega

/-- C5 witness: with the last recorded sample at 0 percent, a sample at 50
percent records (delta 50), and a following sample at 55 percent (delta 5,
at most 10) does not. -/
theorem scroll_delta_gate_witness :
    (scrollPct 500 1000 - scrollPct 550 1000).natAbs ≤ 10 ∧
    ¬(((scrollStep 0 500 1000).2).isSome = true ∧
      ((scrollStep (scrollStep 0 500 1000).1 550 1000).2).isSome = true) := by
  have h50 : scrollPct 500 1000 = 50 := by norm_num [scrollPct, mathRound]
  have h55 : scrollPct 550 1000 = 55 := by norm_num [scrollPct, mathRound]
  refine ⟨by rw [h50, h55]; decide, ?_⟩
  exact scroll_delta_gate.2 0 500 1000 550 1000 (by rw [h50, h55]; decide)

/-- C4 fails as stated: clicking the detached id-less div makes the click
listener throw a TypeError back into event dispatch (line 397 dereferences
element.parentNode, which is null), instead of yielding an absent locator
in the record. -/
theorem clickListener_throws_detached :
    clickListener detachedDom "t0"
        { target := 0, clientX := 1, clientY := 2, pageX := 3, pageY := 4 } =
      Except.error JsError.typeError := by
  rfl

/-- C4 amended: a lookup that cannot resolve does abort the category
listener.  For any element with no id that is not the body and whose
parentNode is null (a detached ancestry), getXPath throws a TypeError and
the click listener on such a target rethrows it into the host dispatch,
emitting no record. -/
theorem getXPath_null_parent_throws (d : Dom) (e : Nat)
    (hid : d.id e = "") (hbody : e ≠ d.body) (hpar : d.parent e = none) :
    getXPath d e = Except.error JsError.typeError ∧
    ∀ (ts : String) (ev : ClickEvent), ev.target = e →
      clickListener d ts ev = Except.error JsError.typeError := by
  have hx : getXPath d e = Except.error JsError.typeError := by
    simp [getXPath, getXPathFuel, hid, hbody, hpar]
  refine ⟨hx, ?_⟩
  intro ts ev hev
  simp only [clickListener, hev, hx]
  rfl

/-- C4 witness: the amended theorem evaluated on the detached span. -/
theorem getXPath_null_parent_throws_witness :
    detachedSpanDom.id 0 = "" ∧ (0 : Nat) ≠ detachedSpanDom.body ∧
    detachedSpanDom.parent 0 = none ∧
    getXPath detachedSpanDom 0 = Except.error JsError.typeError :=
  ⟨rfl, by decide, rfl,
    (getXPath_null_parent_throws detachedSpanDom 0 rfl (by decide) rfl).1⟩

/-- C6: KeyPress is never coalesced and is suppressed exactly for password
fields: a keydown on a password target emits nothing; any other keydown
emits one record carrying the event's key, code and modifier flags; a
sequence of non-password keydowns emits one record per event in order, and
distinct timestamps give pairwise-distinct records. -/
theorem keypress_per_event :
    (∀ e : KeyEvent, e.targetType = "password" → keydownListener e = none) ∧
    (∀ e : KeyEvent, e.targetType ≠ "password" →
        keydownListener e = some (mkKeyRecord e) ∧
        (mkKeyRecord e).key = e.key ∧ (mkKeyRecord e).code = e.code ∧
        (mkKeyRecord e).ctrlKey = e.ctrlKey ∧
        (mkKeyRecord e).shiftKey = e.shiftKey ∧
        (mkKeyRecord e).altKey = e.altKey) ∧
    (∀ evts : List KeyEvent, (∀ e ∈ evts, e.targetType ≠ "password") →
        processKeydowns evts = evts.map mkKeyRecord ∧
        (processKeydowns evts).length = evts.length) ∧
    (∀ evts : List KeyEvent, (∀ e ∈ evts, e.targetType ≠ "password") →
        (evts.map (fun e => e.timestamp)).Nodup →
        (processKeydowns evts).Nodup) := by
  have hmap : ∀ evts : List KeyEvent, (∀ e ∈ evts, e.targetType ≠ "password") →
      processKeydowns evts = evts.map mkKeyRecord := by
    intro evts
    induction evts with
    | nil => intro _; rfl
    | cons e rest ih =>
      intro h
      have he : keydownListener e = some (mkKeyRecord e) := by
        simp [keydownListener, h e (List.mem_cons_self e rest)]
      simp [processKeydowns, List.filterMap_cons, he,
        ih (fun x hx => h x (List.mem_cons_of_mem e hx))]
      exact ih (fun x hx => h x (List.mem_cons_of_mem e hx)) ▸ rfl
  refine ⟨?_, ?_, ?_, ?_⟩
  · intro e h
    simp [keydownListener, h]
  · intro e h
    exact ⟨by simp [keydownListener, h], rfl, rfl, rfl, rfl, rfl⟩
  · intro evts h
    refine ⟨hmap evts h, ?_⟩
    rw [hmap evts h, List.length_map]
  · intro evts h hn
    rw [hmap evts h]
    apply List.Nodup.of_map (fun r : KeyRecord => r.timestamp)
    rw [List.map_map]
    exact hn

/-- C6 witness: five rapid keydowns on a text input yield five distinct
records, one per event, in order. -/
theorem keypress_per_event_witness :
    (∀ e ∈ ([{ timestamp := "t1", key := "h", code := "KeyH", ctrlKey := false,
               shiftKey := false, altKey := false, targetType := "text",
               targetTag := "INPUT" },
             { timestamp := "t2", key := "e", code := "KeyE", ctrlKey := false,
               shiftKey := false, altKey := false, targetType := "text",
               targetTag := "INPUT" },
             { timestamp := "t3", key := "l", code := "KeyL", ctrlKey := false,
               shiftKey := false, altKey := false, targetType := "text",
               targetTag := "INPUT" },
             { timestamp := "t4", key := "l", code := "KeyL", ctrlKey := false,
               shiftKey := false, altKey := false, targetType := "text",
               targetTag := "INPUT" },
             { timestamp := "t5", key := "o", code := "KeyO", ctrlKey := true,
               shiftKey := false, altKey := false, targetType := "text",
               targetTag := "INPUT" }] : List KeyEvent),
        e.targetType ≠ "password") ∧
    (processKeydowns
        [{ timestamp := "t1", key := "h", code := "KeyH", ctrlKey := false,
           shiftKey := false, altKey := false, targetType := "text",
           targetTag := "INPUT" },
         { timestamp := "t2", key := "e", code := "KeyE", ctrlKey := false,
           shiftKey := false, altKey := false, targetType := "text",
           targetTag := "INPUT" },
         { timestamp := "t3", key := "l", code := "KeyL", ctrlKey := false,
           shiftKey := false, altKey := false, targetType := "text",
           targetTag := "INPUT" },
         { timestamp := "t4", key := "l", code := "KeyL", ctrlKey := false,
           shiftKey := false, altKey := false, targetType := "text",
           targetTag := "INPUT" },
         { timestamp := "t5", key := "o", code := "KeyO", ctrlKey := true,
           shiftKey := false, altKey := false, targetType := "text",
           targetTag := "INPUT" }]).length = 5 ∧
    (processKeydowns
        [{ timestamp := "t1", key := "h", code := "KeyH", ctrlKey := false,
           shiftKey := false, altKey := false, targetType := "text",
           targetTag := "INPUT" },
         { timestamp := "t2", key := "e", code := "KeyE", ctrlKey := false,
           shiftKey := false, altKey := false, targetType := "text",
           targetTag := "INPUT" },
         { timestamp := "t3", key := "l", code := "KeyL", ctrlKey := false,
           shiftKey := false, altKey := false, targetType := "text",
           targetTag := "INPUT" },
         { timestamp := "t4", key := "l", code := "KeyL", ctrlKey := false,
           shiftKey := false, altKey := false, targetType := "text",
           targetTag := "INPUT" },
         { timestamp := "t5", key := "o", code := "KeyO", ctrlKey := true,
           shiftKey := false, altKey := false, targetType := "text",
           targetTag := "INPUT" }]).Nodup := by
  refine ⟨by decide, ?_, ?_⟩
  · exact ((keypress_per_event.2.2.1 _ (by decide)).2).trans (by decide)
  · exact keypress_per_event.2.2.2 _ (by decide) (by decide)

/-- C7: for any element carrying an id attribute, both structural locators
take their identifier-based form: the CSS selector is the hash form and
the XPath locator the id-attribute form, with no ancestor path. -/
theorem locator_prefers_id (d : Dom) (e : Nat) (h : d.id e ≠ "") :
    getCSSSelector d e = "#" ++ d.id e ∧
    getXPath d e = Except.ok (some ("//*[@id=\"" ++ d.id e ++ "\"]")) := by
  constructor
  · simp [getCSSSelector, h]
  · simp [getXPath, getXPathFuel, h]

/-- C7 witness: the button with id submit-btn gets the hash selector and
the id-attribute XPath. -/
theorem locator_prefers_id_witness :
    idButtonDom.id 0 ≠ "" ∧
    getCSSSelector idButtonDom 0 = "#submit-btn" ∧
    getXPath idButtonDom 0 = Except.ok (some "//*[@id=\"submit-btn\"]") :=
  ⟨by decide,
    (locator_prefers_id idButtonDom 0 (by decide)).1,
    (locator_prefers_id idButtonDom 0 (by decide)).2⟩

/-- Every operation's effect list passes the benignness scan: no effect in
it is a network request, a storage write or a DOM mutation. -/
theorem effects_benign (op : Op) :
    (effectsOf op).all (fun eff => !pageHarming eff) = true := by
  cases op with
  | moduleLoad l => cases l <;> decide
  | click d ts ev =>
    rw [effectsOf, clickEffects]
    cases clickListener d ts ev <;> rfl
  | formSubmit => decide
  | inputArrival => decide
  | inputFire e =>
    rw [effectsOf, inputFireEffects]
    split <;> decide
  | scrollArrival => decide
  | scrollFire a b c =>
    rw [effectsOf, scrollFireEffects]
    cases (scrollStep a b c).2 <;> rfl
  | mouseArrival => decide
  | mouseFire p x y t =>
    rw [effectsOf, mouseFireEffects]
    cases (mouseStep p x y t).2 <;> rfl
  | keydown e =>
    rw [effectsOf, keydownEffects]
    cases keydownListener e <;> rfl
  | visibilityChange => decide
  | pageExit => decide
  | customEvent n v t =>
    rw [effectsOf, customEventEffects, trackCustomEvent]
    simp [sinkLineEffect, pageHarming]

/-- C8: every operation of the observation layer (module load and
initialization, each category listener in every branch, and the
custom-event entry point) writes only to the console sink and its own
timer and closure state: none of its effects is a network request, a
storage write or a mutation of page state. -/
theorem observation_layer_console_only :
    ∀ op : Op, ∀ eff ∈ effectsOf op, pageHarming eff = false := by
  intro op eff h
  have hall := effects_benign op
  rw [List.all_eq_true] at hall
  simpa using hall eff h

/-- C8 witness: the console banner written by the submit listener is in
its effect list and is benign. -/
theorem observation_layer_console_only_witness :
    Effect.consoleWrite "FORM SUBMIT" ∈ effectsOf Op.formSubmit ∧
    pageHarming (Effect.consoleWrite "FORM SUBMIT") = false :=
  ⟨by decide,
    observation_layer_console_only Op.formSubmit
      (Effect.consoleWrite "FORM SUBMIT") (by decide)⟩

/-- C9: EventTracker.trackCustomEvent returns undefined and writes the
event name and the payload to the sink verbatim: the Event Data line
carries exactly the given payload, whatever it contains (password-named
fields included), with no masking, truncation or validation. -/
theorem trackCustomEvent_passthrough :
    ∀ (eventName : String) (eventData : JsValue) (now : String),
      (trackCustomEvent eventName eventData now).1 = JsValue.undef ∧
      SinkLine.styled ("🎯 CUSTOM EVENT: " ++ eventName) ∈
        (trackCustomEvent eventName eventData now).2 ∧
      SinkLine.labeled "Event Data:" eventData ∈
        (trackCustomEvent eventName eventData now).2 ∧
      (∀ v : JsValue,
          SinkLine.labeled "Event Data:" v ∈
            (trackCustomEvent eventName eventData now).2 →
          v = eventData) := by
  intro n d t
  refine ⟨rfl, by simp [trackCustomEvent], by simp [trackCustomEvent], ?_⟩
  intro v hv
  simp only [trackCustomEvent, List.mem_cons, List.not_mem_nil, or_false] at hv
  rcases hv with h | h | h | h
  · exact absurd h (by simp)
  · injection h
  · injection h with h1 h2
    exact absurd h1 (by decide)
  · exact absurd h (by simp)

/-- C9 witness: a payload with a password-named field is logged verbatim
and the call returns undefined. -/
theorem trackCustomEvent_passthrough_witness :
    SinkLine.labeled "Event Data:"
        (JsValue.obj [("password", JsValue.str "hunter2")]) ∈
      (trackCustomEvent "signup"
        (JsValue.obj [("password", JsValue.str "hunter2")]) "2026-02-03").2 ∧
    (trackCustomEvent "signup"
        (JsValue.obj [("password", JsValue.str "hunter2")]) "2026-02-03").1 =
      JsValue.undef ∧
    JsValue.obj [("password", JsValue.str "hunter2")] =
      JsValue.obj [("password", JsValue.str "hunter2")] := by
  have h := trackCustomEvent_passthrough "signup"
    (JsValue.obj [("password", JsValue.str "hunter2")]) "2026-02-03"
  exact ⟨h.2.2.1, h.1, h.2.2.2 _ h.2.2.1⟩
